import Mathlib

/-!
Verification of the Update & Recovery subsystem of the parking-client
repository: a shallow embedding of `src/backup_manager.py`,
`src/ota_updater.py` and `src/error_recovery.py`, followed by theorems
settling the specification's claims about restore integrity gating,
retention garbage collection, the OTA update state machine, and the
failure-escalation engine.
-/

/- ------------------------------------------------------------------ -/
/- Backup manager: metadata store, integrity check, restore           -/
/- ------------------------------------------------------------------ -/

/-- Row of the `backups` metadata table (src/backup_manager.py:66-77);
only the columns read during restore are modelled here. -/
structure BackupRow where
  id : Nat
  file_path : String
  checksum : Option String
deriving DecidableEq

/-- Archive and hashing primitives used by the backup manager.
`tarfile.open(.., 'r:gz')` followed by `getmembers`/`extractall` becomes
`tarEntries` (`none` models a raised exception, entries are member
name/content pairs); `calculate_file_checksum`
(src/backup_manager.py:390-401) becomes `sha256hex`; `json.load` of
`backup_metadata.json` followed by reading key `items` becomes
`metadataItems`. -/
structure ArchivePrims where
  tarEntries : List Nat → Option (List (String × List Nat))
  sha256hex : List Nat → String
  metadataItems : List Nat → List String

/-- Filesystem contents and metadata store visible to `restore_backup`:
`files` maps a path to the bytes stored there. -/
structure BackupState where
  db : List BackupRow
  files : List (String × List Nat)

/-- Path lookup in the modelled filesystem (`Path.exists` plus reading). -/
def lookupFile (files : List (String × List Nat)) (path : String) : Option (List Nat) :=
  (files.find? (fun e => e.1 == path)).map (fun e => e.2)

/-- The fixed registry of logical backup sources
(src/backup_manager.py:40-49). -/
def backup_paths : List (String × String) :=
  [("config", "/opt/parking-client/config.json"),
   ("security", "/opt/parking-client/api.key"),
   ("certificates", "/opt/parking-client/certs"),
   ("critical_images", "/opt/parking-client/captures"),
   ("parking_images", "/opt/parking-client/parking_captures"),
   ("exit_images", "/opt/parking-client/exit_captures"),
   ("database", "/opt/parking-client/monitoring.db"),
   ("logs", "/var/log/parking-client")]

/-- `verify_backup_integrity` (src/backup_manager.py:403-431): the file
must open and list as a non-empty tar.gz, and if the metadata store has a
row for this path with a truthy checksum column, that checksum must equal
a freshly computed one.  `fetchone` on the `SELECT checksum ... WHERE
file_path = ?` query is the first matching row. -/
def verify_backup_integrity (p : ArchivePrims) (db : List BackupRow)
    (bytes : List Nat) (path : String) : Bool :=
  match p.tarEntries bytes with
  | none => false
  | some members =>
    if members.isEmpty then false
    else
      match (db.find? (fun r => r.file_path == path)).map (fun r => r.checksum) with
      | some (some stored) =>
          if stored.isEmpty then true
          else stored == p.sha256hex bytes
      | _ => true

/-- Observable filesystem/service effects of a restore run
(src/backup_manager.py:321-359): stopping and restarting the host
service, the `.backup`-suffixed safety copy of a destination, and the
destructive overwrite of a destination path. -/
inductive RestoreEvent where
  | stopServices
  | safetyCopy (dest : String)
  | writeDest (dest : String)
  | startServices
deriving DecidableEq

/-- Result of `restore_backup`: the returned (ok, message) pair, the
effect trace, and the list of restored item names. -/
structure RestoreOutcome where
  ok : Bool
  message : String
  events : List RestoreEvent
  restored : List String
deriving DecidableEq

/-- One iteration of the restore loop over requested items
(src/backup_manager.py:326-352): items outside the registry are ignored,
items whose staged copy is absent from the extracted archive are skipped,
and otherwise the destination receives a safety copy (when it exists)
followed by a destructive overwrite. -/
def restoreStep (st : BackupState) (entries : List (String × List Nat))
    (acc : List RestoreEvent × List String) (item : String) :
    List RestoreEvent × List String :=
  match backup_paths.find? (fun e => e.1 == item) with
  | none => acc
  | some e =>
    if entries.any (fun m => m.1 == item || m.1.startsWith (item ++ "/")) then
      let evs :=
        if (lookupFile st.files e.2).isSome then
          acc.1 ++ [RestoreEvent.safetyCopy e.2, RestoreEvent.writeDest e.2]
        else
          acc.1 ++ [RestoreEvent.writeDest e.2]
      (evs, acc.2 ++ [item])
    else acc

/-- Body of `restore_backup` once the archive path is resolved
(src/backup_manager.py:298-367).  Integrity verification runs before any
service stop or destination write; on success the archive is extracted,
the manifest (or the caller's `restore_items`) chooses the loop items,
the service is stopped, items are restored, and the service restarted. -/
def restore_from_file (p : ArchivePrims) (st : BackupState)
    (path : String) (restore_items : Option (List String)) : RestoreOutcome :=
  match lookupFile st.files path with
  | none => ⟨false, "backup file not found", [], []⟩
  | some bytes =>
    if verify_backup_integrity p st.db bytes path then
      match p.tarEntries bytes with
      | none => ⟨false, "restore failed", [], []⟩
      | some entries =>
        let metaItems :=
          match entries.find? (fun e => e.1 == "backup_metadata.json") with
          | some e => p.metadataItems e.2
          | none => restore_items.getD []
        let loopItems :=
          match restore_items with
          | some l => if l.isEmpty then metaItems else l
          | none => metaItems
        let r := loopItems.foldl (restoreStep st entries) ([RestoreEvent.stopServices], [])
        ⟨true, "restored " ++ toString r.2.length ++ " items successfully",
          r.1 ++ [RestoreEvent.startServices], r.2⟩
    else ⟨false, "backup integrity check failed", [], []⟩

/-- `restore_backup` (src/backup_manager.py:288-371).  A `backup_id`
models a truthy id argument (ids are AUTOINCREMENT and hence nonzero);
it is resolved through the metadata store and overrides `backup_file`. -/
def restore_backup (p : ArchivePrims) (st : BackupState)
    (backup_id : Option Nat) (backup_file : Option String)
    (restore_items : Option (List String)) : RestoreOutcome :=
  match backup_id with
  | some i =>
    match (st.db.find? (fun r => r.id == i)).map (fun r => r.file_path) with
    | none => ⟨false, "backup not found", [], []⟩
    | some path => restore_from_file p st path restore_items
  | none =>
    match backup_file with
    | none => ⟨false, "backup file not found", [], []⟩
    | some path => restore_from_file p st path restore_items

/-- The archive path `restore_backup` ends up reading, if any
(src/backup_manager.py:291-299). -/
def restoreTarget (db : List BackupRow) (backup_id : Option Nat)
    (backup_file : Option String) : Option String :=
  match backup_id with
  | some i => (db.find? (fun r => r.id == i)).map (fun r => r.file_path)
  | none => backup_file

theorem restore_backup_eq_of_target (p : ArchivePrims) (st : BackupState)
    (backup_id : Option Nat) (backup_file : Option String)
    (restore_items : Option (List String)) (path : String)
    (h : restoreTarget st.db backup_id backup_file = some path) :
    restore_backup p st backup_id backup_file restore_items
      = restore_from_file p st path restore_items := by
  cases backup_id with
  | some i =>
    simp only [restoreTarget] at h
    simp only [restore_backup, h]
  | none =>
    simp only [restoreTarget] at h
    simp only [restore_backup, h]

theorem restore_from_file_verify_false (p : ArchivePrims) (st : BackupState)
    (path : String) (restore_items : Option (List String)) (bytes : List Nat)
    (hfile : lookupFile st.files path = some bytes)
    (hverify : verify_backup_integrity p st.db bytes path = false) :
    restore_from_file p st path restore_items
      = ⟨false, "backup integrity check failed", [], []⟩ := by
  simp only [restore_from_file, hfile, hverify, Bool.false_eq_true, if_false]

/-- C1: for every restore call, if integrity verification fails — the
archive cannot be opened and listed as a non-empty tar.gz, or a checksum
recorded for it in the metadata store differs from a freshly computed
one — `restore_backup` returns the integrity-failure error with an empty
effect trace: the service is never stopped and no destination path is
written.  In particular, corrupting one byte of the archive after
creation (so that the freshly computed digest no longer matches the
recorded one) is rejected this way with zero destructive writes. -/
theorem restore_integrity_gate :
    (∀ (p : ArchivePrims) (st : BackupState) (bid : Option Nat)
       (bfile : Option String) (items : Option (List String))
       (path : String) (bytes : List Nat),
       restoreTarget st.db bid bfile = some path →
       lookupFile st.files path = some bytes →
       verify_backup_integrity p st.db bytes path = false →
       restore_backup p st bid bfile items
         = ⟨false, "backup integrity check failed", [], []⟩)
  ∧ (∀ (p : ArchivePrims) (st : BackupState) (items : Option (List String))
       (path : String) (orig : List Nat) (i v : Nat),
       lookupFile st.files path = some (orig.set i v) →
       (st.db.find? (fun r => r.file_path == path)).map (fun r => r.checksum)
         = some (some (p.sha256hex orig)) →
       (p.sha256hex orig).isEmpty = false →
       p.sha256hex (orig.set i v) ≠ p.sha256hex orig →
       restore_backup p st none (some path) items
         = ⟨false, "backup integrity check failed", [], []⟩) := by
  constructor
  · intro p st bid bfile items path bytes htarget hfile hverify
    rw [restore_backup_eq_of_target p st bid bfile items path htarget]
    exact restore_from_file_verify_false p st path items bytes hfile hverify
  · intro p st items path orig i v hfile hrow hne hdiff
    have hverify : verify_backup_integrity p st.db (orig.set i v) path = false := by
      cases htar : p.tarEntries (orig.set i v) with
      | none => simp [verify_backup_integrity, htar]
      | some members =>
        cases hmem : members.isEmpty with
        | true => simp [verify_backup_integrity, htar, hmem]
        | false =>
          simp only [verify_backup_integrity, htar, hmem, Bool.false_eq_true,
            if_false, hrow, hne]
          simp only [beq_eq_false_iff_ne, ne_eq]
          exact fun h => hdiff h.symm
    have htarget : restoreTarget st.db none (some path) = some path := rfl
    rw [restore_backup_eq_of_target p st none (some path) items path htarget]
    exact restore_from_file_verify_false p st path items (orig.set i v) hfile hverify

/-- Concrete primitives used by witnesses: every non-empty byte string
opens as a one-member archive, and the digest distinguishes `[0]` from
everything else. -/
def witnessPrims : ArchivePrims :=
  { tarEntries := fun bs => if bs.isEmpty then none else some [("config", bs)]
    sha256hex := fun bs => if bs = [0] then "aa" else "bb"
    metadataItems := fun _ => [] }

/-- State for the C1 witness: the store records the digest of the
original bytes `[0]`, but the file on disk now holds the one-byte
corruption `[1]`. -/
def witnessCorruptState : BackupState :=
  { db := [⟨1, "/opt/parking-client/backups/b.tar.gz", some "aa"⟩]
    files := [("/opt/parking-client/backups/b.tar.gz", [1])] }

theorem restore_integrity_gate_witness :
    restore_backup witnessPrims witnessCorruptState none
      (some "/opt/parking-client/backups/b.tar.gz") none
      = ⟨false, "backup integrity check failed", [], []⟩ :=
  restore_integrity_gate.2 witnessPrims witnessCorruptState none
    "/opt/parking-client/backups/b.tar.gz" [0] 0 1
    (by decide) (by decide) (by decide) (by decide)

theorem restoreStep_events (st : BackupState) (entries : List (String × List Nat))
    (acc : List RestoreEvent × List String) (item : String) :
    ∃ t, (restoreStep st entries acc item).1 = acc.1 ++ t := by
  unfold restoreStep
  cases backup_paths.find? (fun e => e.1 == item) with
  | none => exact ⟨[], by simp⟩
  | some e =>
    cases h : entries.any (fun m => m.1 == item || m.1.startsWith (item ++ "/")) with
    | false => exact ⟨[], by simp [h]⟩
    | true =>
      cases h2 : (lookupFile st.files e.2).isSome with
      | false => exact ⟨[RestoreEvent.writeDest e.2], by simp [h, h2]⟩
      | true =>
        exact ⟨[RestoreEvent.safetyCopy e.2, RestoreEvent.writeDest e.2],
          by simp [h, h2]⟩

theorem restore_foldl_events (st : BackupState) (entries : List (String × List Nat)) :
    ∀ (l : List String) (acc : List RestoreEvent × List String),
      ∃ t, (l.foldl (restoreStep st entries) acc).1 = acc.1 ++ t := by
  intro l
  induction l with
  | nil => exact fun acc => ⟨[], by simp⟩
  | cons a l ih =>
    intro acc
    obtain ⟨s, hs⟩ := restoreStep_events st entries acc a
    obtain ⟨t, ht⟩ := ih (restoreStep st entries acc a)
    exact ⟨s ++ t, by simp only [List.foldl_cons, ht, hs, List.append_assoc]⟩

theorem restore_from_file_success (p : ArchivePrims) (st : BackupState)
    (path : String) (items : Option (List String)) (bytes : List Nat)
    (entries : List (String × List Nat))
    (hfile : lookupFile st.files path = some bytes)
    (hverify : verify_backup_integrity p st.db bytes path = true)
    (htar : p.tarEntries bytes = some entries) :
    (restore_from_file p st path items).ok = true
    ∧ (restore_from_file p st path items).events.head?
        = some RestoreEvent.stopServices := by
  have key : ∀ (l : List String),
      ((l.foldl (restoreStep st entries) ([RestoreEvent.stopServices], [])).1
        ++ [RestoreEvent.startServices]).head? = some RestoreEvent.stopServices := by
    intro l
    obtain ⟨t, ht⟩ := restore_foldl_events st entries l ([RestoreEvent.stopServices], [])
    rw [ht]
    rfl
  simp only [restore_from_file, hfile, hverify, if_true, htar]
  exact ⟨trivial, key _⟩

/-- C10: when `restore_backup` is called with an explicit archive path
that has no row in the `backups` metadata table, verification performs no
checksum comparison at all — any bytes at that path that open and list as
a non-empty tar.gz pass `verify_backup_integrity`, and the restore
proceeds past the gate: it returns success, stopping the service first
(no matter what digests any hash function would compute). -/
theorem restore_unknown_path_no_checksum :
    ∀ (p : ArchivePrims) (st : BackupState) (items : Option (List String))
      (path : String) (bytes : List Nat) (entries : List (String × List Nat)),
      st.db.find? (fun r => r.file_path == path) = none →
      lookupFile st.files path = some bytes →
      p.tarEntries bytes = some entries →
      entries.isEmpty = false →
      verify_backup_integrity p st.db bytes path = true
      ∧ (restore_backup p st none (some path) items).ok = true
      ∧ (restore_backup p st none (some path) items).events.head?
          = some RestoreEvent.stopServices := by
  intro p st items path bytes entries hrow hfile htar hmem
  have hverify : verify_backup_integrity p st.db bytes path = true := by
    simp [verify_backup_integrity, htar, hmem, hrow]
  have hr : restore_backup p st none (some path) items
      = restore_from_file p st path items := rfl
  rw [hr]
  exact ⟨hverify, restore_from_file_success p st path items bytes entries
    hfile hverify htar⟩

/-- State for the C10 witness: a non-empty archive sits at a path about
which the metadata store knows nothing. -/
def witnessUnknownState : BackupState :=
  { db := []
    files := [("/tmp/foreign.tar.gz", [7])] }

theorem restore_unknown_path_no_checksum_witness :
    verify_backup_integrity witnessPrims witnessUnknownState.db [7] "/tmp/foreign.tar.gz" = true
    ∧ (restore_backup witnessPrims witnessUnknownState none
        (some "/tmp/foreign.tar.gz") none).ok = true
    ∧ (restore_backup witnessPrims witnessUnknownState none
        (some "/tmp/foreign.tar.gz") none).events.head?
        = some RestoreEvent.stopServices :=
  restore_unknown_path_no_checksum witnessPrims witnessUnknownState none
    "/tmp/foreign.tar.gz" [7] [("config", [7])]
    (by decide) (by decide) (by decide) (by decide)

/- ------------------------------------------------------------------ -/
/- Backup creation: missing sources and the manifest item list        -/
/- ------------------------------------------------------------------ -/

/-- Result of `create_backup` (src/backup_manager.py:205-286): whether a
backup file was produced, the requested logical items actually staged
into the archive (the `source_path.exists()` check at line 219 silently
skips missing sources), and the `items` list of the manifest dictionary
written to `backup_metadata.json` (lines 238-249).  Only string-named
registry items are modelled; the staging, tar, checksum and
metadata-store recording steps that follow are not needed by the claims
and are summarised by `ok`. -/
structure CreateOutcome where
  ok : Bool
  included : List String
  manifestItems : List String
  archiveMembers : List String
deriving DecidableEq

/-- `create_backup` over a filesystem described by its existence
predicate.  Line 243 of src/backup_manager.py stores the *requested*
`items` list in the manifest, not the subset that was staged. -/
def create_backup (pathExists : String → Bool) (items : List String) : CreateOutcome :=
  let included := items.filter (fun item =>
    match backup_paths.find? (fun e => e.1 == item) with
    | some e => pathExists e.2
    | none => false)
  { ok := true
    included := included
    manifestItems := items
    archiveMembers := included ++ ["backup_metadata.json"] }

/-- C8 counterexample: requesting "config" (present) and "logs"
(missing) succeeds and stages only "config", yet the manifest's item
list is the full requested list — it is not the (shorter) list of items
actually included, contradicting the claim. -/
theorem create_backup_manifest_counterexample :
    (create_backup (fun pth => pth == "/opt/parking-client/config.json")
        ["config", "logs"]).ok = true
    ∧ (create_backup (fun pth => pth == "/opt/parking-client/config.json")
        ["config", "logs"]).included = ["config"]
    ∧ (create_backup (fun pth => pth == "/opt/parking-client/config.json")
        ["config", "logs"]).manifestItems = ["config", "logs"]
    ∧ (create_backup (fun pth => pth == "/opt/parking-client/config.json")
        ["config", "logs"]).manifestItems
      ≠ (create_backup (fun pth => pth == "/opt/parking-client/config.json")
        ["config", "logs"]).included := by
  decide

/-- C8 amended: `create_backup` skips any requested source whose path
does not exist without failing the whole operation, and the archive
holds exactly the included items plus the manifest file; but the
manifest's item list records the requested list itself — it is never
shortened to the included subset, so a partial backup is not marked as
such by the manifest. -/
theorem create_backup_skips_missing :
    ∀ (pathExists : String → Bool) (items : List String),
      (create_backup pathExists items).ok = true
      ∧ (create_backup pathExists items).included.length ≤ items.length
      ∧ (create_backup pathExists items).manifestItems = items
      ∧ (create_backup pathExists items).archiveMembers
          = (create_backup pathExists items).included ++ ["backup_metadata.json"] := by
  intro pathExists items
  refine ⟨rfl, ?_, rfl, rfl⟩
  exact List.length_filter_le _ items

/- ------------------------------------------------------------------ -/
/- Retention garbage collection                                       -/
/- ------------------------------------------------------------------ -/

/-- Row of the backups table as read by `cleanup_old_backups`
(src/backup_manager.py:525-566). -/
structure BackupRec where
  id : Nat
  backup_type : String
  created_at : Nat
deriving DecidableEq

/-- `ORDER BY created_at ASC`; ties are broken by the rowid, modelled as
the id. -/
def recLE (a b : BackupRec) : Prop :=
  a.created_at < b.created_at ∨ (a.created_at = b.created_at ∧ a.id ≤ b.id)

instance : DecidableRel recLE := fun a b => by
  unfold recLE
  exact inferInstance

instance : IsTotal BackupRec recLE := ⟨by
  intro a b
  unfold recLE
  omega⟩

instance : IsTrans BackupRec recLE := ⟨by
  intro a b c hab hbc
  unfold recLE at *
  omega⟩

/-- The metadata rows in `created_at` order, i.e. the order in which the
GC queries return them. -/
def byCreatedAsc (rows : List BackupRec) : List BackupRec :=
  List.insertionSort recLE rows

/-- The age-rule query (src/backup_manager.py:533-537): rows strictly
older than the cutoff whose type is not `weekly`, oldest first. -/
def ageSelected (cutoff : Nat) (rows : List BackupRec) : List BackupRec :=
  (byCreatedAsc rows).filter
    (fun r => decide (r.created_at < cutoff) && (r.backup_type != "weekly"))

/-- The hard-cap query (src/backup_manager.py:539-546): when the total
count exceeds `max_local_backups`, the `total - max` oldest rows
irrespective of type. -/
def capSelected (maxLocal : Nat) (rows : List BackupRec) : List BackupRec :=
  if maxLocal < rows.length then (byCreatedAsc rows).take (rows.length - maxLocal)
  else []

/-- `cleanup_old_backups` (src/backup_manager.py:525-566): both selected
groups are deleted by id (deleting a row twice is a no-op, so the result
is the complement of the union). -/
def cleanup_old_backups (cutoff maxLocal : Nat) (rows : List BackupRec) :
    List BackupRec :=
  let doomed := (ageSelected cutoff rows ++ capSelected maxLocal rows).map
    (fun r => r.id)
  rows.filter (fun r => !(decide (r.id ∈ doomed)))

theorem recLE_created_at {a b : BackupRec} (h : recLE a b) :
    a.created_at ≤ b.created_at := by
  unfold recLE at h
  omega

/-- C3: the age-based rule of retention GC never selects weekly-type
records, and when the record count exceeds `max_local_backups` the GC
deletes the oldest records irrespective of type until the cap is met: if
additionally no record is older than the retention cutoff (so the age
rule deletes nothing), exactly `maxLocal` records remain, namely the
most recent ones regardless of type — every kept record is at least as
recent as every deleted one. -/
theorem cleanup_retention_policy (cutoff maxLocal : Nat) (rows : List BackupRec)
    (hids : rows.Pairwise (fun a b => a.id ≠ b.id)) :
    (∀ r ∈ ageSelected cutoff rows,
        r.created_at < cutoff ∧ r.backup_type ≠ "weekly")
    ∧ (maxLocal < rows.length →
        (∀ r ∈ rows, cutoff ≤ r.created_at) →
        (cleanup_old_backups cutoff maxLocal rows).length = maxLocal
        ∧ (∀ r ∈ rows,
            (r ∈ cleanup_old_backups cutoff maxLocal rows
              ↔ r ∉ capSelected maxLocal rows))
        ∧ ∀ kept ∈ cleanup_old_backups cutoff maxLocal rows,
            ∀ gone ∈ capSelected maxLocal rows,
              gone.created_at ≤ kept.created_at) := by
  constructor
  · intro r hr
    rw [ageSelected, List.mem_filter] at hr
    obtain ⟨-, hp⟩ := hr
    simp only [Bool.and_eq_true, decide_eq_true_eq, bne_iff_ne, ne_eq] at hp
    exact hp
  · intro hcap hfresh
    set s := byCreatedAsc rows with hs
    set k := rows.length - maxLocal with hk
    have hperm : List.Perm s rows := List.perm_insertionSort recLE rows
    have hlen : s.length = rows.length := hperm.length_eq
    have hsort : List.Pairwise recLE s := List.sorted_insertionSort recLE rows
    have hpair_s : s.Pairwise (fun a b => a.id ≠ b.id) :=
      hperm.symm.pairwise hids (fun h => h.symm)
    have hage : ageSelected cutoff rows = [] := by
      rw [ageSelected, List.filter_eq_nil_iff]
      intro r hr
      have hrrows : r ∈ rows := hperm.subset hr
      have := hfresh r hrrows
      simp only [Bool.and_eq_true, decide_eq_true_eq, bne_iff_ne, ne_eq, not_and]
      omega
    have hcapsel : capSelected maxLocal rows = s.take k := by
      rw [capSelected, if_pos hcap]
    have hdoomed :
        (ageSelected cutoff rows ++ capSelected maxLocal rows).map (fun r => r.id)
          = (s.take k).map (fun r => r.id) := by
      rw [hage, hcapsel, List.nil_append]
    have hsplit : s.take k ++ s.drop k = s := List.take_append_drop k s
    have hpair_td :
        ∀ a ∈ s.take k, ∀ b ∈ s.drop k, a.id ≠ b.id := by
      have := hsplit ▸ hpair_s
      exact (List.pairwise_append.mp this).2.2
    have hsort_td :
        ∀ a ∈ s.take k, ∀ b ∈ s.drop k, recLE a b := by
      have := hsplit ▸ hsort
      exact (List.pairwise_append.mp this).2.2
    have hcleanup :
        cleanup_old_backups cutoff maxLocal rows
          = rows.filter (fun r => !(decide (r.id ∈ (s.take k).map (fun r => r.id)))) := by
      rw [cleanup_old_backups]
      simp only [hdoomed]
    have hfilter_perm :
        List.Perm
          (rows.filter (fun r => !(decide (r.id ∈ (s.take k).map (fun r => r.id)))))
          (s.filter (fun r => !(decide (r.id ∈ (s.take k).map (fun r => r.id))))) :=
      (hperm.filter _).symm
    have hfilter_s :
        s.filter (fun r => !(decide (r.id ∈ (s.take k).map (fun r => r.id))))
          = s.drop k := by
      have hmid :
          (s.take k ++ s.drop k).filter
            (fun r => !(decide (r.id ∈ (s.take k).map (fun r => r.id))))
          = s.filter (fun r => !(decide (r.id ∈ (s.take k).map (fun r => r.id)))) := by
        rw [hsplit]
      rw [← hmid, List.filter_append]
      have h1 : (s.take k).filter
          (fun r => !(decide (r.id ∈ (s.take k).map (fun r => r.id)))) = [] := by
        rw [List.filter_eq_nil_iff]
        intro r hr
        simp only [Bool.not_eq_true', decide_eq_false_iff_not, not_not]
        exact List.mem_map_of_mem _ hr
      have h2 : (s.drop k).filter
          (fun r => !(decide (r.id ∈ (s.take k).map (fun r => r.id)))) = s.drop k := by
        rw [List.filter_eq_self]
        intro r hr
        simp only [Bool.not_eq_true', decide_eq_false_iff_not, List.mem_map,
          not_exists, not_and]
        intro y hy hyid
        exact hpair_td y hy r hr hyid
      rw [h1, h2, List.nil_append]
    have hclean_perm :
        List.Perm (cleanup_old_backups cutoff maxLocal rows) (s.drop k) := by
      rw [hcleanup, ← hfilter_s]
      exact hfilter_perm
    refine ⟨?_, ?_, ?_⟩
    · rw [hclean_perm.length_eq, List.length_drop]
      omega
    · intro r hrrows
      rw [hcleanup, hcapsel, List.mem_filter]
      constructor
      · rintro ⟨-, hp⟩ hrtake
        simp only [Bool.not_eq_true', decide_eq_false_iff_not] at hp
        exact hp (List.mem_map_of_mem _ hrtake)
      · intro hnot
        refine ⟨hrrows, ?_⟩
        simp only [Bool.not_eq_true', decide_eq_false_iff_not, List.mem_map,
          not_exists, not_and]
        intro y hy hyid
        have hyrows : y ∈ rows := hperm.subset (List.take_subset k s hy)
        by_cases hyr : y = r
        · exact hnot (hyr ▸ hy)
        · exact (List.Pairwise.forall (fun _ _ h => Ne.symm h) hids hyrows hrrows hyr) hyid
    · intro kept hkept gone hgone
      have hkdrop : kept ∈ s.drop k := hclean_perm.subset hkept
      rw [hcapsel] at hgone
      exact recLE_created_at (hsort_td gone hgone kept hkdrop)

/-- The concrete scenario from the claim: five completed backups, one of
them weekly, none older than the retention cutoff, with a cap of 3. -/
def scenarioRows : List BackupRec :=
  [⟨1, "daily", 10⟩, ⟨2, "weekly", 20⟩, ⟨3, "daily", 30⟩,
   ⟨4, "manual", 40⟩, ⟨5, "daily", 50⟩]

theorem cleanup_retention_policy_witness :
    (cleanup_old_backups 5 3 scenarioRows).length = 3 :=
  ((cleanup_retention_policy 5 3 scenarioRows (by decide)).2 (by decide)
      (by decide)).1

/- ------------------------------------------------------------------ -/
/- OTA updater: state machine, single-flight guard, verification      -/
/- ------------------------------------------------------------------ -/

/-- Configuration of the updater read in `OTAUpdater.__init__`
(src/ota_updater.py:29-38); only the fields the modelled paths consult. -/
structure OtaConfig where
  update_server : String
  backup_before_update : Bool
deriving DecidableEq

/-- The update metadata driving `perform_update`
(src/ota_updater.py:120-130 and 479-485). -/
structure UpdateInfo where
  version : String
  download_url : String
  checksum : Option String
deriving DecidableEq

/-- `self.update_status` (src/ota_updater.py:48-54). -/
structure OtaStatus where
  last_check : Option Nat
  available_version : Option String
  update_in_progress : Bool
  last_update : Option Nat
  update_result : Option String
deriving DecidableEq

/-- Externally visible side effects of an update run. -/
inductive OtaEvent where
  | backupCreated
  | downloaded
  | extracted
  | serviceStopped
  | filesApplied
  | serviceRestarted
  | rolledBack
deriving DecidableEq

/-- Installation and updater state: the `VERSION` marker contents, the
pre-update snapshots (newest first, each remembered by the version it
archived), the status record and the effect trace. -/
structure OtaState where
  status : OtaStatus
  version : String
  backups : List String
  events : List OtaEvent
deriving DecidableEq

/-- Environment of one update run: the digest function, the bytes the
download produced (`none` models a download failure), and the outcomes
of backup creation, extraction, file copying and the post-apply sanity
check. -/
structure OtaEnv where
  sha256hex : List Nat → String
  download : Option (List Nat)
  backupOk : Bool
  extractOk : Bool
  applyOk : Bool
  sanityOk : Bool
  now : Nat

/-- `verify_package_integrity` (src/ota_updater.py:243-268): a falsy
server checksum — absent or the empty string, per `if not
expected_checksum` at line 247 — skips the check with only a warning;
otherwise the SHA-256 of the downloaded bytes must equal it. -/
def verify_package_integrity (env : OtaEnv) (packageBytes : List Nat)
    (info : UpdateInfo) : Bool :=
  match info.checksum with
  | none => true
  | some expected =>
    if expected.isEmpty then true
    else env.sha256hex packageBytes == expected

/-- `rollback_update` (src/ota_updater.py:398-429): restore the newest
snapshot — stop the service, extract the backup over the install tree
(reverting the version marker), restart the service.  With no snapshot
available it only logs and changes nothing. -/
def rollback_update (st : OtaState) : OtaState :=
  match st.backups with
  | [] => st
  | v :: _ =>
    { st with
      version := v
      events := st.events ++ [OtaEvent.serviceStopped, OtaEvent.rolledBack,
        OtaEvent.serviceRestarted] }

/-- The `try` body of `perform_update` (src/ota_updater.py:146-186):
snapshot, download, verify, extract, apply, verify applied, restart.
Returns the state reached together with the exception message if a step
raised.  `create_backup` keeps only the newest five snapshots
(src/ota_updater.py:385-389). -/
def update_attempt (cfg : OtaConfig) (env : OtaEnv) (info : UpdateInfo)
    (st : OtaState) : OtaState × Option String :=
  let afterBackup : OtaState × Option String :=
    if cfg.backup_before_update then
      if env.backupOk then
        ({ st with
            backups := (st.version :: st.backups).take 5
            events := st.events ++ [OtaEvent.backupCreated] }, none)
      else (st, some "failed to create backup")
    else (st, none)
  match afterBackup with
  | (st1, some m) => (st1, some m)
  | (st1, none) =>
    match env.download with
    | none => (st1, some "failed to download update package")
    | some bytes =>
      let st2 := { st1 with events := st1.events ++ [OtaEvent.downloaded] }
      if verify_package_integrity env bytes info then
        if env.extractOk then
          let st3 := { st2 with events := st2.events ++ [OtaEvent.extracted] }
          if env.applyOk then
            let st4 := { st3 with
              version := info.version
              events := st3.events ++ [OtaEvent.serviceStopped, OtaEvent.filesApplied] }
            if st4.version == info.version && env.sanityOk then
              ({ st4 with events := st4.events ++ [OtaEvent.serviceRestarted] }, none)
            else (st4, some "update verification failed")
          else
            ({ st3 with events := st3.events ++ [OtaEvent.serviceStopped] },
              some "failed to apply update")
        else (st2, some "failed to extract update package")
      else (st2, some "package integrity verification failed")

/-- `perform_update` (src/ota_updater.py:140-200).  The in-progress
guard returns before the `try` block, leaving the status untouched; the
`except` arm records `failed: <reason>` and attempts a rollback whenever
`backup_before_update` is set; the `finally` arm clears the in-progress
flag on both exits. -/
def perform_update (cfg : OtaConfig) (env : OtaEnv) (info : UpdateInfo)
    (st : OtaState) : Bool × OtaState :=
  if st.status.update_in_progress then (false, st)
  else
    let st0 := { st with status := { st.status with update_in_progress := true } }
    match update_attempt cfg env info st0 with
    | (st1, none) =>
      (true,
        { st1 with status := { st1.status with
            update_result := some "success"
            last_update := some env.now
            update_in_progress := false } })
    | (st1, some msg) =>
      let st2 := { st1 with status := { st1.status with
          update_result := some ("failed: " ++ msg) } }
      let st3 := if cfg.backup_before_update then rollback_update st2 else st2
      (false, { st3 with status := { st3.status with update_in_progress := false } })

/-- `manual_update` (src/ota_updater.py:467-497): the in-progress guard
answers "update already in progress"; otherwise `check_for_updates`
refreshes `available_version` from the server, and if a version is
available an `UpdateInfo` with `checksum = None` is built and
`perform_update` is spawned on it (the spawned info is returned here).
`serverVersion` is the availability answer of the server. -/
def manual_update (cfg : OtaConfig) (env : OtaEnv) (serverVersion : Option String)
    (force : Bool) (st : OtaState) :
    (Bool × String) × OtaState × Option UpdateInfo :=
  if st.status.update_in_progress then
    ((false, "update already in progress"), st, none)
  else if st.status.available_version.isNone && !force then
    ((false, "no update available"), st, none)
  else
    let st1 := { st with status := { st.status with
        available_version := serverVersion
        last_check := some env.now } }
    match st1.status.available_version with
    | some v =>
      ((true, "update started"), st1,
        some { version := v
               download_url := cfg.update_server
                 ++ "/api/client/updates/download/" ++ v
               checksum := none })
    | none => ((false, "no update available"), st1, none)

/-- C7: at most one update is in flight at any time — while the
in-progress flag is set, `perform_update` returns failure immediately
and `manual_update` answers "update already in progress", and both leave
the whole updater state (status record, installed version, snapshots,
effect trace) unchanged. -/
theorem single_flight_guard :
    ∀ (cfg : OtaConfig) (env : OtaEnv) (info : UpdateInfo)
      (serverVersion : Option String) (force : Bool) (st : OtaState),
      st.status.update_in_progress = true →
      perform_update cfg env info st = (false, st)
      ∧ manual_update cfg env serverVersion force st
          = ((false, "update already in progress"), st, none) := by
  intro cfg env info sv force st h
  constructor
  · simp [perform_update, h]
  · simp [manual_update, h]

/-- An updater environment for concrete runs. -/
def envC2 : OtaEnv :=
  { sha256hex := fun _ => "cprime"
    download := some [0]
    backupOk := true
    extractOk := true
    applyOk := true
    sanityOk := true
    now := 7 }

def cfgC2 : OtaConfig := { update_server := "http://srv", backup_before_update := true }

def infoC2 : UpdateInfo :=
  { version := "1.2.0", download_url := "http://srv/pkg", checksum := some "c" }

/-- Installed version 1.0.0, nothing in flight. -/
def stIdle : OtaState :=
  { status := { last_check := none, available_version := none,
                update_in_progress := false, last_update := none,
                update_result := none }
    version := "1.0.0", backups := [], events := [] }

/-- Same installation while an update is in flight. -/
def stBusy : OtaState :=
  { status := { last_check := none, available_version := some "1.2.0",
                update_in_progress := true, last_update := none,
                update_result := none }
    version := "1.0.0", backups := [], events := [] }

theorem single_flight_guard_witness :
    perform_update cfgC2 envC2 infoC2 stBusy = (false, stBusy)
    ∧ manual_update cfgC2 envC2 (some "1.2.0") false stBusy
        = ((false, "update already in progress"), stBusy, none) :=
  single_flight_guard cfgC2 envC2 infoC2 (some "1.2.0") false stBusy rfl

/-- C9: every update spawned through `manual_update` carries
`checksum = none` in its `UpdateInfo` (src/ota_updater.py:484), and
`verify_package_integrity` passes unconditionally when no checksum is
present (src/ota_updater.py:246-249) — so a manually triggered update
never checksum-verifies the downloaded package, whatever bytes arrive
and whatever digest any environment would compute for them. -/
theorem manual_update_skips_checksum :
    ∀ (cfg : OtaConfig) (env : OtaEnv) (serverVersion : Option String)
      (force : Bool) (st : OtaState) (info : UpdateInfo),
      (manual_update cfg env serverVersion force st).2.2 = some info →
      info.checksum = none
      ∧ ∀ (env2 : OtaEnv) (bytes : List Nat),
          verify_package_integrity env2 bytes info = true := by
  intro cfg env sv force st info h
  unfold manual_update at h
  split at h
  · simp at h
  · split at h
    · simp at h
    · simp only at h
      split at h
      next v heq =>
        simp only [Option.some.injEq] at h
        subst h
        exact ⟨rfl, fun env2 bytes => rfl⟩
      next => simp at h

theorem manual_update_skips_checksum_witness :
    (manual_update cfgC2 envC2 (some "1.2.0") true stIdle).2.2
      = some { version := "1.2.0"
               download_url := "http://srv/api/client/updates/download/1.2.0"
               checksum := none }
    ∧ ({ version := "1.2.0"
         download_url := "http://srv/api/client/updates/download/1.2.0"
         checksum := none } : UpdateInfo).checksum = none
    ∧ verify_package_integrity envC2 [9]
        { version := "1.2.0"
          download_url := "http://srv/api/client/updates/download/1.2.0"
          checksum := none } = true := by
  refine ⟨by decide, ?_, ?_⟩
  · exact (manual_update_skips_checksum cfgC2 envC2 (some "1.2.0") true stIdle _
      (by decide)).1
  · exact (manual_update_skips_checksum cfgC2 envC2 (some "1.2.0") true stIdle _
      (by decide)).2 envC2 [9]

/-- C2 counterexample: in the claimed scenario (installed "1.0.0",
server checksum "c", downloaded bytes hashing to "cprime" ≠ "c") the
recorded result is "failed: package integrity verification failed" —
not "failed: checksum mismatch" — and a rollback IS performed
(`rolledBack` appears in the effect trace), because `perform_update`
always calls `rollback_update` on failure when `backup_before_update`
is set (src/ota_updater.py:188-194). -/
theorem update_checksum_scenario_counterexample :
    ((perform_update cfgC2 envC2 infoC2 stIdle).2.status.update_result
        ≠ some "failed: checksum mismatch")
    ∧ OtaEvent.rolledBack ∈ (perform_update cfgC2 envC2 infoC2 stIdle).2.events := by
  decide

/-- C2 amended: installed version "1.0.0", server reports a version with
checksum c, the downloaded bytes hash to a different value, snapshotting
enabled and succeeding: the update aborts at the verification step —
`perform_update` returns failure, `update_result` is recorded as
"failed: package integrity verification failed" (the code's message,
not "failed: checksum mismatch"), the installed version remains
"1.0.0", the in-progress flag is cleared, and no extraction or file
application takes place; however, because `backup_before_update` is set,
a rollback of the just-taken (unchanged) snapshot IS performed rather
than skipped.  The checksum must be non-empty: a falsy checksum would
skip verification altogether (src/ota_updater.py:247). -/
theorem update_checksum_mismatch_aborts :
    ∀ (cfg : OtaConfig) (env : OtaEnv) (info : UpdateInfo) (st : OtaState)
      (c : String) (bytes : List Nat),
      st.status.update_in_progress = false →
      st.version = "1.0.0" →
      cfg.backup_before_update = true →
      env.backupOk = true →
      env.download = some bytes →
      info.checksum = some c →
      c.isEmpty = false →
      env.sha256hex bytes ≠ c →
      (perform_update cfg env info st).1 = false
      ∧ (perform_update cfg env info st).2.status.update_result
          = some "failed: package integrity verification failed"
      ∧ (perform_update cfg env info st).2.version = "1.0.0"
      ∧ (perform_update cfg env info st).2.status.update_in_progress = false
      ∧ (perform_update cfg env info st).2.events
          = st.events ++ [OtaEvent.backupCreated, OtaEvent.downloaded,
              OtaEvent.serviceStopped, OtaEvent.rolledBack,
              OtaEvent.serviceRestarted] := by
  intro cfg env info st c bytes hprog hver hback hbok hdl hck hcne hne
  have hbeq : (env.sha256hex bytes == c) = false := by
    simp [hne]
  simp [perform_update, update_attempt, verify_package_integrity,
    rollback_update, hprog, hver, hback, hbok, hdl, hck, hcne, hbeq]

theorem update_checksum_mismatch_aborts_witness :
    (perform_update cfgC2 envC2 infoC2 stIdle).1 = false
    ∧ (perform_update cfgC2 envC2 infoC2 stIdle).2.status.update_result
        = some "failed: package integrity verification failed"
    ∧ (perform_update cfgC2 envC2 infoC2 stIdle).2.version = "1.0.0"
    ∧ (perform_update cfgC2 envC2 infoC2 stIdle).2.status.update_in_progress = false
    ∧ (perform_update cfgC2 envC2 infoC2 stIdle).2.events
        = stIdle.events ++ [OtaEvent.backupCreated, OtaEvent.downloaded,
            OtaEvent.serviceStopped, OtaEvent.rolledBack,
            OtaEvent.serviceRestarted] :=
  update_checksum_mismatch_aborts cfgC2 envC2 infoC2 stIdle "c" [0]
    rfl rfl rfl rfl rfl rfl rfl (by decide)

/- ------------------------------------------------------------------ -/
/- Recovery escalator: debounce, ladder, critical marking             -/
/- ------------------------------------------------------------------ -/

/-- Per-camera-domain recovery state (src/error_recovery.py:27-30 and
183-198): the failure counter, the `last_recovery_attempt` timestamp for
this domain, whether the feature is still enabled in the live config,
and how many critical alerts were emitted. -/
structure CamState where
  failures : Nat
  lastAttempt : Option Nat
  enabled : Bool
  criticalAlerts : Nat
deriving DecidableEq

def camInit : CamState :=
  { failures := 0, lastAttempt := none, enabled := true, criticalAlerts := 0 }

/-- The ladder of camera recovery strategies dispatched on the attempt
index by `recover_camera` (src/error_recovery.py:138-167). -/
inductive CamStrategy where
  | restartSingle
  | restartAll
  | reinitializeManager
  | resetCameraSystem
  | serviceRestart
deriving DecidableEq

def recover_camera_strategy (attempt : Nat) : CamStrategy :=
  if attempt = 1 then CamStrategy.restartSingle
  else if attempt = 2 then CamStrategy.restartAll
  else if attempt = 3 then CamStrategy.reinitializeManager
  else if attempt = 4 then CamStrategy.resetCameraSystem
  else CamStrategy.serviceRestart

/-- The debounce test of src/error_recovery.py:117-119: a previous
attempt for this domain exists and lies less than `recovery_interval`
seconds in the past. -/
def camDebounced (interval now : Nat) (st : CamState) : Bool :=
  match st.lastAttempt with
  | some t => decide (now - t < interval)
  | none => false

/-- `handle_camera_failure` for one camera domain
(src/error_recovery.py:107-136).  `recoverOk attempt` is the outcome the
camera manager / OS give the strategy at that ladder index.  Returns the
new state and the ladder index attempted, if any: inside the debounce
interval nothing happens; past `max_camera_retries` the domain is marked
critical (feature disabled, alert sent) and no recovery is attempted. -/
def handle_camera_failure (maxRetries interval : Nat) (recoverOk : Nat → Bool)
    (now : Nat) (st : CamState) : CamState × Option Nat :=
  if camDebounced interval now st then (st, none)
  else
    let c := st.failures + 1
    let st1 := { st with failures := c, lastAttempt := some now }
    if c ≤ maxRetries then
      if recoverOk c then ({ st1 with failures := 0 }, some c)
      else (st1, some c)
    else
      ({ st1 with enabled := false, criticalAlerts := st1.criticalAlerts + 1 },
        none)

/-- Network-domain recovery state (src/error_recovery.py:28-29): the
global failure counter, the `last_recovery_attempt['network']` entry,
and the service restart counter touched by critical escalation. -/
structure NetState where
  failures : Nat
  lastAttempt : Option Nat
  service_restarts : Nat
deriving DecidableEq

/-- `recover_network` (src/error_recovery.py:239-265): the first three
attempts back off and report success, attempts 4 and 5 bounce the
interface / restart networking and report success, anything beyond
returns failure. -/
def recover_network (attempt : Nat) : Bool :=
  if attempt ≤ 3 then true
  else if attempt = 4 then true
  else if attempt = 5 then true
  else false

/-- The debounce test of src/error_recovery.py:222-223. -/
def netDebounced (interval now : Nat) (st : NetState) : Bool :=
  match st.lastAttempt with
  | some t => decide (now - t < interval)
  | none => false

/-- `handle_network_failure` (src/error_recovery.py:217-237) with
`handle_critical_network_failure` (lines 267-275) inlined: past
`max_network_retries` a whole-service restart is requested while the
shared budget lasts. -/
def handle_network_failure (maxRetries maxServiceRestarts interval : Nat)
    (now : Nat) (st : NetState) : NetState × Option Nat :=
  if netDebounced interval now st then (st, none)
  else
    let c := st.failures + 1
    let st1 := { st with failures := c, lastAttempt := some now }
    if c ≤ maxRetries then
      if recover_network c then ({ st1 with failures := 0 }, some c)
      else (st1, some c)
    else
      if st1.service_restarts < maxServiceRestarts then
        ({ st1 with service_restarts := st1.service_restarts + 1 }, none)
      else (st1, none)

/-- A run of consecutive failing health checks against one camera
domain, spaced exactly one debounce interval apart (check `k` happens at
time `k * interval`): the final state and the trace of attempted ladder
indices. -/
def camRun (maxRetries interval : Nat) (recoverOk : Nat → Bool) :
    Nat → CamState × List Nat
  | 0 => (camInit, [])
  | n + 1 =>
    let prev := camRun maxRetries interval recoverOk n
    let step := handle_camera_failure maxRetries interval recoverOk
      (n * interval) prev.1
    (step.1, prev.2 ++ step.2.toList)

theorem camRun_invariant (maxRetries interval : Nat) :
    ∀ n, (camRun maxRetries interval (fun _ => false) n).1.failures = n
      ∧ (camRun maxRetries interval (fun _ => false) n).1.lastAttempt
          = (if n = 0 then none else some ((n - 1) * interval))
      ∧ (camRun maxRetries interval (fun _ => false) n).2
          = (List.range (min n maxRetries)).map (fun k => k + 1)
      ∧ (camRun maxRetries interval (fun _ => false) n).1.enabled
          = decide (n ≤ maxRetries) := by
  intro n
  induction n with
  | zero =>
    refine ⟨rfl, rfl, ?_, ?_⟩
    · simp [camRun, camInit]
    · simp [camRun, camInit]
  | succ n ih =>
    obtain ⟨hf, hl, htr, hen⟩ := ih
    have hdeb :
        camDebounced interval (n * interval)
          (camRun maxRetries interval (fun _ => false) n).1 = false := by
      unfold camDebounced
      rw [hl]
      by_cases hn : n = 0
      · simp [hn]
      · have h1 : 1 ≤ n := Nat.one_le_iff_ne_zero.mpr hn
        simp only [hn, if_false]
        rw [decide_eq_false_iff_not]
        have : (n - 1) * interval + interval = n * interval := by
          cases n with
          | zero => omega
          | succ m => simp [Nat.succ_mul]
        omega
    constructor
    · simp only [camRun, handle_camera_failure, hdeb, Bool.false_eq_true, if_false]
      by_cases hc : n + 1 ≤ maxRetries
      · simp [hf, hc]
      · simp [hf, hc]
    · constructor
      · simp only [camRun, handle_camera_failure, hdeb, Bool.false_eq_true, if_false]
        by_cases hc : n + 1 ≤ maxRetries
        · simp [hf, hc]
        · simp [hf, hc]
      · constructor
        · simp only [camRun, handle_camera_failure, hdeb, Bool.false_eq_true,
            if_false]
          by_cases hc : n + 1 ≤ maxRetries
          · have hmin1 : min n maxRetries = n := by omega
            have hmin2 : min (n + 1) maxRetries = n + 1 := by omega
            simp [hf, hc, htr, hmin1, hmin2, List.range_succ]
          · have hmin1 : min n maxRetries = maxRetries := by omega
            have hmin2 : min (n + 1) maxRetries = maxRetries := by omega
            simp [hf, hc, htr, hmin1, hmin2]
        · simp only [camRun, handle_camera_failure, hdeb, Bool.false_eq_true,
            if_false]
          by_cases hc : n + 1 ≤ maxRetries
          · have h1 : n ≤ maxRetries := by omega
            simp [hf, hc, hen, h1]
          · simp [hf, hc]

/-- C5: against a camera domain that fails every health check, with the
debounce interval elapsed between checks and every per-attempt recovery
action failing, the attempted ladder indices over `n` checks are exactly
1, 2, …, min n maxRetries — strictly increasing up to the domain's
`maxRetries` — while the failure counter keeps the count; once the
counter exceeds `maxRetries` the domain is marked critical (its feature
disabled) and no further recovery attempts occur — the attempt trace
stays at length `maxRetries` — until an external reset clears the
counter. -/
theorem escalation_ladder_strict (maxRetries interval n : Nat) :
    (camRun maxRetries interval (fun _ => false) n).2
      = (List.range (min n maxRetries)).map (fun k => k + 1)
    ∧ (camRun maxRetries interval (fun _ => false) n).1.failures = n
    ∧ (maxRetries < n →
        (camRun maxRetries interval (fun _ => false) n).1.enabled = false
        ∧ (camRun maxRetries interval (fun _ => false) n).2.length
            = maxRetries) := by
  obtain ⟨hf, hl, htr, hen⟩ := camRun_invariant maxRetries interval n
  refine ⟨htr, hf, fun h => ⟨?_, ?_⟩⟩
  · rw [hen]
    simp only [decide_eq_false_iff_not]
    omega
  · rw [htr]
    simp only [List.length_map, List.length_range]
    omega

theorem escalation_ladder_strict_witness :
    (camRun 5 30 (fun _ => false) 7).2
      = (List.range (min 7 5)).map (fun k => k + 1)
    ∧ (camRun 5 30 (fun _ => false) 7).1.enabled = false
    ∧ (camRun 5 30 (fun _ => false) 7).2.length = 5 :=
  ⟨(escalation_ladder_strict 5 30 7).1,
   ((escalation_ladder_strict 5 30 7).2.2 (by decide)).1,
   ((escalation_ladder_strict 5 30 7).2.2 (by decide)).2⟩

theorem camAttempt_sets_lastAttempt (maxRetries interval : Nat)
    (recoverOk : Nat → Bool) (now : Nat) (st : CamState)
    (h : camDebounced interval now st = false) :
    (handle_camera_failure maxRetries interval recoverOk now st).1.lastAttempt
      = some now := by
  simp only [handle_camera_failure, h, Bool.false_eq_true, if_false]
  by_cases hc : st.failures + 1 ≤ maxRetries
  · by_cases hr : recoverOk (st.failures + 1) <;> simp [hc, hr]
  · simp [hc]

theorem netAttempt_sets_lastAttempt (maxRetries maxServiceRestarts interval : Nat)
    (now : Nat) (st : NetState)
    (h : netDebounced interval now st = false) :
    (handle_network_failure maxRetries maxServiceRestarts interval now st).1.lastAttempt
      = some now := by
  simp only [handle_network_failure, h, Bool.false_eq_true, if_false]
  by_cases hc : st.failures + 1 ≤ maxRetries
  · by_cases hr : recover_network (st.failures + 1) <;> simp [hc, hr]
  · by_cases hs : st.service_restarts < maxServiceRestarts <;> simp [hc, hs]

/-- C6: for each domain, two failures reported within
`recovery_interval` seconds of each other produce exactly one recovery
attempt: if the first report (at `t1`) is outside the debounce window,
then a second report at any `t2` with `t2 - t1 < interval` returns with
no attempt and leaves the domain state — failure counter, last-attempt
timestamp and all other fields — unchanged; this holds for the camera
and the network handlers alike. -/
theorem debounce_single_attempt :
    ∀ (interval t1 t2 : Nat),
      t2 - t1 < interval →
      (∀ (maxRetries : Nat) (recoverOk : Nat → Bool) (cam : CamState),
        camDebounced interval t1 cam = false →
        handle_camera_failure maxRetries interval recoverOk t2
            (handle_camera_failure maxRetries interval recoverOk t1 cam).1
          = ((handle_camera_failure maxRetries interval recoverOk t1 cam).1, none))
      ∧ (∀ (maxRetries maxServiceRestarts : Nat) (net : NetState),
        netDebounced interval t1 net = false →
        handle_network_failure maxRetries maxServiceRestarts interval t2
            (handle_network_failure maxRetries maxServiceRestarts interval t1 net).1
          = ((handle_network_failure maxRetries maxServiceRestarts interval t1 net).1,
              none)) := by
  intro interval t1 t2 h12
  constructor
  · intro maxRetries recoverOk cam h1
    have hla := camAttempt_sets_lastAttempt maxRetries interval recoverOk t1 cam h1
    have hdeb2 : camDebounced interval t2
        (handle_camera_failure maxRetries interval recoverOk t1 cam).1 = true := by
      unfold camDebounced
      rw [hla]
      simp [h12]
    set st1 := (handle_camera_failure maxRetries interval recoverOk t1 cam).1
      with hst1
    simp only [handle_camera_failure, hdeb2, if_true]
  · intro maxRetries maxServiceRestarts net h1
    have hla := netAttempt_sets_lastAttempt maxRetries maxServiceRestarts interval
      t1 net h1
    have hdeb2 : netDebounced interval t2
        (handle_network_failure maxRetries maxServiceRestarts interval t1 net).1
          = true := by
      unfold netDebounced
      rw [hla]
      simp [h12]
    set st1 := (handle_network_failure maxRetries maxServiceRestarts interval t1 net).1
      with hst1
    simp only [handle_network_failure, hdeb2, if_true]

/-- Fresh network-domain state. -/
def netInit : NetState :=
  { failures := 0, lastAttempt := none, service_restarts := 0 }

theorem debounce_single_attempt_witness :
    handle_camera_failure 5 30 (fun _ => false) 10
        (handle_camera_failure 5 30 (fun _ => false) 0 camInit).1
      = ((handle_camera_failure 5 30 (fun _ => false) 0 camInit).1, none)
    ∧ handle_network_failure 10 3 30 10
        (handle_network_failure 10 3 30 0 netInit).1
      = ((handle_network_failure 10 3 30 0 netInit).1, none) :=
  ⟨(debounce_single_attempt 30 0 10 (by decide)).1 5 (fun _ => false) camInit rfl,
   (debounce_single_attempt 30 0 10 (by decide)).2 10 3 netInit rfl⟩

/- ------------------------------------------------------------------ -/
/- The two whole-service restart paths                                -/
/- ------------------------------------------------------------------ -/

/-- State relevant to whole-service restarts: the recovery escalator's
`service_restarts` counter with its `max_service_restarts` ceiling
(src/error_recovery.py:29 and 35), plus a count of the actual
`systemctl restart parking-camera` invocations either path performs. -/
structure RestartState where
  service_restarts : Nat
  max_service_restarts : Nat
  systemctl_restarts : Nat
deriving DecidableEq

/-- `OTAUpdater.restart_service` (src/ota_updater.py:440-447): runs
`systemctl restart parking-camera` unconditionally; it consults and
updates no counter. -/
def ota_restart_service (s : RestartState) : RestartState :=
  { s with systemctl_restarts := s.systemctl_restarts + 1 }

/-- `ErrorRecoveryManager.restart_service`
(src/error_recovery.py:366-382): refuses once `service_restarts` has
reached `max_service_restarts`, otherwise increments its own counter and
restarts. -/
def recovery_restart_service (s : RestartState) : Bool × RestartState :=
  if s.max_service_restarts ≤ s.service_restarts then (false, s)
  else
    (true,
      { s with
        service_restarts := s.service_restarts + 1
        systemctl_restarts := s.systemctl_restarts + 1 })

/-- C4 counterexample: an updater-triggered restart performs a
`systemctl restart` yet leaves the escalator's `service_restarts`
counter at 0, while an escalator restart moves that counter to 1 — the
two paths do not decrement one shared counter; moreover the updater
still restarts when the escalator's budget is already exhausted. -/
theorem restart_budget_not_shared_counterexample :
    (ota_restart_service ⟨0, 3, 0⟩).systemctl_restarts = 1
    ∧ (ota_restart_service ⟨0, 3, 0⟩).service_restarts ≠ 1
    ∧ (recovery_restart_service ⟨0, 3, 0⟩).2.service_restarts = 1
    ∧ (ota_restart_service ⟨3, 3, 0⟩).systemctl_restarts = 1 := by
  decide

/-- C4 amended: the updater's and the escalator's whole-service restarts
do NOT share a restart counter: `OTAUpdater.restart_service` restarts
unconditionally and leaves the escalator's `service_restarts` counter
untouched (even when that budget is exhausted), while only
`ErrorRecoveryManager.restart_service` counts against and is bounded by
`max_service_restarts` — so updater restarts never consume the
escalator's budget, and escalator exhaustion never stops the updater. -/
theorem restart_paths_independent :
    ∀ (s : RestartState),
      (ota_restart_service s).service_restarts = s.service_restarts
      ∧ (ota_restart_service s).systemctl_restarts = s.systemctl_restarts + 1
      ∧ (s.service_restarts < s.max_service_restarts →
          recovery_restart_service s
            = (true, { s with
                service_restarts := s.service_restarts + 1
                systemctl_restarts := s.systemctl_restarts + 1 }))
      ∧ (s.max_service_restarts ≤ s.service_restarts →
          recovery_restart_service s = (false, s)) := by
  intro s
  refine ⟨rfl, rfl, ?_, ?_⟩
  · intro h
    rw [recovery_restart_service, if_neg (by omega)]
  · intro h
    rw [recovery_restart_service, if_pos h]

theorem restart_paths_independent_witness :
    (ota_restart_service ⟨1, 3, 0⟩).service_restarts = 1
    ∧ (ota_restart_service ⟨1, 3, 0⟩).systemctl_restarts = 1
    ∧ recovery_restart_service ⟨1, 3, 0⟩ = (true, ⟨2, 3, 1⟩)
    ∧ recovery_restart_service ⟨3, 3, 5⟩ = (false, ⟨3, 3, 5⟩) :=
  ⟨(restart_paths_independent ⟨1, 3, 0⟩).1,
   (restart_paths_independent ⟨1, 3, 0⟩).2.1,
   (restart_paths_independent ⟨1, 3, 0⟩).2.2.1 (by decide),
   (restart_paths_independent ⟨3, 3, 5⟩).2.2.2 (by decide)⟩
